import Mathlib

/-!
Verification development for the color-scale generator:
the `colorMix` string primitives (`colorMix`, `transparentize`, `lighten`,
`darken`) and the scale-generation module (`colorOptionToAlphaScale`,
`colorOptionToLightnessScale` and their helpers).

The TypeScript sources are shallowly embedded:
- colors are `HslaColor` records over `ℚ`;
- mutable JS objects keyed by shade become functions `String → Option _`
  (the TS types restrict object inputs to the 15 shade keys, and JS
  iterates integer-like keys in ascending numeric order, which is exactly
  the order of `ALL_SHADES`);
- `throw` becomes `Except.error`, `undefined` results become `none`;
- the cached `isColorMixSupported()` probe becomes a boolean parameter;
- the external `colors` collaborator (not part of these sources) is
  partly a parameter (`ColorsApi`) and partly modelled from the spec.
-/

set_option maxHeartbeats 1600000

namespace ClerkColors

/-- An HSLA color record: hue, saturation, lightness, alpha, as exact
rationals (the embedding of the collaborator's `HslaColor`). -/
structure HslaColor where
  h : ℚ
  s : ℚ
  l : ℚ
  a : ℚ
deriving DecidableEq

/-- Modelled from the spec: the external color-parsing collaborator
(`colors` module, not under the embedded sources) must expose
"parse arbitrary CSS color string → HSLA" (`toHslaColor`) and
"HSLA → CSS color string" (`toHslaString`) as total functions.
Both are kept abstract as parameters; theorems quantify over them. -/
structure ColorsApi where
  toHslaColor : String → HslaColor
  toHslaString : HslaColor → String

/-- Modelled from the spec: the collaborator's "shift lightness by a
signed delta" operation (`colors.changeHslaLightness`), which leaves
hue, saturation and alpha untouched. -/
def changeHslaLightness (color : HslaColor) (delta : ℚ) : HslaColor :=
  { color with l := color.l + delta }

/-- Modelled from the spec: the collaborator's "set alpha channel"
operation (`colors.setHslaAlpha`). -/
def setHslaAlpha (color : HslaColor) (alpha : ℚ) : HslaColor :=
  { color with a := alpha }

/-- A percentage string such as "10%": the integer part, rendered with a
trailing percent sign.  `parseInt` of such a string recovers `value`. -/
structure Percentage where
  value : Int
deriving DecidableEq

/-- Rendering of a percentage string (what JS template interpolation of
the percentage produces). -/
def Percentage.render (p : Percentage) : String :=
  toString p.value ++ "%"

/-- Embedding of `colorMix(colorOne, colorTwo)`. -/
def colorMix (colorOne : String) (colorTwo : String) : String :=
  "color-mix(in oklch, " ++ colorOne ++ ", " ++ colorTwo ++ ")"

/-- Embedding of `transparentize(color, percentage)`. -/
def transparentize (color : String) (percentage : Percentage) : String :=
  colorMix (color ++ " " ++ percentage.render) "transparent"

/-- Embedding of `lighten(color, percentage)`. -/
def lighten (color : String) (percentage : Percentage) : String :=
  colorMix (color ++ " " ++ toString (100 - percentage.value) ++ "%")
    ("white " ++ percentage.render)

/-- Embedding of `darken(color, percentage)`: the second operand is the
string literal `black 10%`, whatever the percentage. -/
def darken (color : String) (percentage : Percentage) : String :=
  colorMix (color ++ " " ++ toString (100 - percentage.value) ++ "%")
    "black 10%"

/-- Embedding of `LIGHT_SHADES` (the source builds it by reversing the
ascending list). -/
def LIGHT_SHADES : List String :=
  (["25", "50", "100", "150", "200", "300", "400"] : List String).reverse

/-- Embedding of `DARK_SHADES`. -/
def DARK_SHADES : List String :=
  ["600", "700", "750", "800", "850", "900", "950"]

/-- Embedding of `ALL_SHADES = [...[...LIGHT_SHADES].reverse(), '500', ...DARK_SHADES]`. -/
def ALL_SHADES : List String :=
  LIGHT_SHADES.reverse ++ ["500"] ++ DARK_SHADES

/-- Embedding of `TARGET_L_50_SHADE = 97`. -/
def TARGET_L_50_SHADE : ℚ := 97

/-- Embedding of `TARGET_L_900_SHADE = 12`. -/
def TARGET_L_900_SHADE : ℚ := 12

/-- Index of a string in a list (position of the first occurrence),
used to express "the i-th element of the shade loop". -/
def indexOfStr (l : List String) (k : String) : Option Nat :=
  match l with
  | [] => none
  | x :: rest => if x = k then some 0 else (indexOfStr rest k).map (· + 1)

/-- JS truthiness of a possibly-absent string property: absent and the
empty string are falsy. -/
def truthy : Option String → Bool
  | none => false
  | some s => !(s == "")

/-- A `colorOption` argument: `undefined`, a single color string, or a
partial shade→color object (keys range over the 15 shade keys, per the
TS types). -/
inductive ColorOption where
  | undef : ColorOption
  | str : String → ColorOption
  | scale : (String → Option String) → ColorOption

/-- JS truthiness of the whole `colorOption` value: `undefined` and the
empty string are falsy, objects are always truthy. -/
def ColorOption.isFalsy : ColorOption → Bool
  | ColorOption.undef => true
  | ColorOption.str s => s == ""
  | ColorOption.scale _ => false

/-- JS string coercion of a `colorOption`, as performed by template
interpolation when the code casts the value to a string: plain objects
coerce to the literal "[object Object]". -/
def coerceToString : ColorOption → String
  | ColorOption.undef => "undefined"
  | ColorOption.str s => s
  | ColorOption.scale _ => "[object Object]"

/-- Embedding of `ALPHA_SHADES_MAP` (object-literal entries in ascending
shade order, which is also JS enumeration order). -/
def ALPHA_SHADES_MAP : List (String × Percentage) :=
  [("25", ⟨2⟩), ("50", ⟨3⟩), ("100", ⟨7⟩), ("150", ⟨11⟩), ("200", ⟨15⟩),
   ("300", ⟨28⟩), ("400", ⟨41⟩), ("500", ⟨53⟩), ("600", ⟨62⟩), ("700", ⟨73⟩),
   ("750", ⟨78⟩), ("800", ⟨81⟩), ("850", ⟨84⟩), ("900", ⟨87⟩), ("950", ⟨92⟩)]

/-- Prefixed entry list: for each key (in order), when the per-key value
is defined, emit the pair (pfx ++ key, value).  This is the common shape
of every output object of the module: keys are enumerated in ascending
shade order and falsy/absent values are skipped. -/
def prefixedEntries (pfx : String) (keys : List String)
    (value : String → Option String) : List (String × String) :=
  keys.filterMap (fun k => (value k).map (fun v => (pfx ++ k, v)))

/-- Embedding of `createAlphaScaleWithTransparentize(baseColor, prefix)`. -/
def createAlphaScaleWithTransparentize (baseColor : String) (pfx : String) :
    List (String × String) :=
  ALPHA_SHADES_MAP.map (fun e => (pfx ++ e.1, transparentize baseColor e.2))

/-- Embedding of `prefixAndStringifyHslaScale(scale, prefix)`: the scale
object always carries exactly the 15 shade keys; defined (truthy) values
are stringified and prefixed, absent ones are skipped. -/
def prefixAndStringifyHslaScale (api : ColorsApi)
    (scale : String → Option HslaColor) (pfx : String) :
    List (String × String) :=
  prefixedEntries pfx ALL_SHADES (fun k => (scale k).map api.toHslaString)

/-- Embedding of `generateFilledScaleFromBaseHslaColor(base)`: shade 500
is the base; the i-th entry of `LIGHT_SHADES` (resp. `DARK_SHADES`) gets
lightness shifted by `(i+1)·lightPercentage` (resp.
`(i+1)·darkPercentage·(-1)`). -/
def generateFilledScaleFromBaseHslaColor (base : HslaColor) :
    String → Option HslaColor :=
  fun k =>
    if k = "500" then some base
    else
      let lightPercentage : ℚ := (TARGET_L_50_SHADE - base.l) / (LIGHT_SHADES.length : ℚ)
      let darkPercentage : ℚ := (base.l - TARGET_L_900_SHADE) / (DARK_SHADES.length : ℚ)
      match indexOfStr LIGHT_SHADES k with
      | some i => some (changeHslaLightness base (((i : ℚ) + 1) * lightPercentage))
      | none =>
        match indexOfStr DARK_SHADES k with
        | some i => some (changeHslaLightness base (((i : ℚ) + 1) * darkPercentage * (-1)))
        | none => none

/-- Embedding of the constant alpha table `alphas` of
`generateFilledAlphaScaleFromBaseHslaColor`. -/
def alphas : List ℚ :=
  [0.02, 0.03, 0.07, 0.11, 0.15, 0.28, 0.41, 0.53, 0.62, 0.73, 0.78, 0.81,
   0.84, 0.87, 0.92]

/-- Embedding of `generateFilledAlphaScaleFromBaseHslaColor(base)`: the
k-th shade key (in ascending enumeration order) receives the base with
alpha first cleared to 0 and then set to `alphas[k]`.  The `getD`
default is never hit: every shade key has an index below 15. -/
def generateFilledAlphaScaleFromBaseHslaColor (base : HslaColor) :
    String → Option HslaColor :=
  let baseWithoutAlpha := setHslaAlpha base 0
  fun k =>
    match indexOfStr ALL_SHADES k with
    | some i => some (setHslaAlpha baseWithoutAlpha (alphas.getD i 0))
    | none => none

/-- Embedding of `getUserProvidedScaleOrGenerateHslaColorsScale`:
falsy input propagates `undefined`; an object input missing any of the
15 shade keys throws; a complete object is parsed key-by-key; a string
input seeds the generator. -/
def getUserProvidedScaleOrGenerateHslaColorsScale (api : ColorsApi)
    (colorOption : ColorOption) (pfx : String)
    (generator : HslaColor → String → Option HslaColor) :
    Except String (Option (List (String × String))) :=
  if colorOption.isFalsy then Except.ok none
  else
    match colorOption with
    | ColorOption.undef => Except.ok none
    | ColorOption.scale m =>
      if !(ALL_SHADES.all (fun k => (m k).isSome)) then
        Except.error ("You need to provide all the following shades: " ++
          String.intercalate ", " ALL_SHADES)
      else
        Except.ok (some (prefixAndStringifyHslaScale api
          (fun k => (m k).map api.toHslaColor) pfx))
    | ColorOption.str s =>
      Except.ok (some (prefixAndStringifyHslaScale api
        (generator (api.toHslaColor s)) pfx))

/-- Embedding of `colorOptionToHslaAlphaScale`. -/
def colorOptionToHslaAlphaScale (api : ColorsApi) (colorOption : ColorOption)
    (pfx : String) : Except String (Option (List (String × String))) :=
  getUserProvidedScaleOrGenerateHslaColorsScale api colorOption pfx
    generateFilledAlphaScaleFromBaseHslaColor

/-- Embedding of `colorOptionToAlphaScale`; `colorMixSupported` stands
for the cached `isColorMixSupported()` probe.  On the supported branch
the source casts `colorOption` to a string and interpolates it into the
transparentize template, hence `coerceToString`. -/
def colorOptionToAlphaScale (api : ColorsApi) (colorMixSupported : Bool)
    (colorOption : ColorOption) (pfx : String) :
    Except String (Option (List (String × String))) :=
  if colorOption.isFalsy then Except.ok none
  else if colorMixSupported then
    Except.ok (some (createAlphaScaleWithTransparentize (coerceToString colorOption) pfx))
  else colorOptionToHslaAlphaScale api colorOption pfx

/-- Tag of a `LIGHTNESS_SHADES_DEF` entry. -/
inductive ShadeType where
  | base : ShadeType
  | lighten : ShadeType
  | darken : ShadeType
deriving DecidableEq

/-- Embedding of `LIGHTNESS_SHADES_DEF` (object-literal entries in
ascending shade order). -/
def LIGHTNESS_SHADES_DEF : List (String × ShadeType × Percentage) :=
  [("25", ShadeType.lighten, ⟨92⟩), ("50", ShadeType.lighten, ⟨85⟩),
   ("100", ShadeType.lighten, ⟨70⟩), ("150", ShadeType.lighten, ⟨55⟩),
   ("200", ShadeType.lighten, ⟨40⟩), ("300", ShadeType.lighten, ⟨25⟩),
   ("400", ShadeType.lighten, ⟨10⟩), ("500", ShadeType.base, ⟨0⟩),
   ("600", ShadeType.darken, ⟨10⟩), ("700", ShadeType.darken, ⟨25⟩),
   ("750", ShadeType.darken, ⟨40⟩), ("800", ShadeType.darken, ⟨55⟩),
   ("850", ShadeType.darken, ⟨70⟩), ("900", ShadeType.darken, ⟨85⟩),
   ("950", ShadeType.darken, ⟨92⟩)]

/-- Embedding of `ALL_LIGHTNESS_SHADE_KEYS = Object.keys(LIGHTNESS_SHADES_DEF)`. -/
def ALL_LIGHTNESS_SHADE_KEYS : List String :=
  LIGHTNESS_SHADES_DEF.map (fun e => e.1)

/-- The `userProvidedShades` object of `createColorMixLightnessScale`:
only truthy entries of the input object are recorded. -/
def userShades (m : String → Option String) : String → Option String :=
  fun k =>
    match m k with
    | some s => if s == "" then none else some s
    | none => none

/-- The `generatedScale` object of `createColorMixLightnessScale`: every
shade key is produced from the 500 base according to its definition. -/
def colorMixGeneratedScale (baseFor500 : String) : String → Option String :=
  fun k =>
    match LIGHTNESS_SHADES_DEF.lookup k with
    | some (ShadeType.base, _) => some baseFor500
    | some (ShadeType.lighten, amt) => some (lighten baseFor500 amt)
    | some (ShadeType.darken, amt) => some (darken baseFor500 amt)
    | none => none

/-- The `mergedScale` object `{ ...generatedScale, ...userProvidedShades }`:
user-provided entries win. -/
def colorMixMergedScale (baseFor500 : String) (user : String → Option String) :
    String → Option String :=
  fun k =>
    match user k with
    | some v => some v
    | none => colorMixGeneratedScale baseFor500 k

/-- The final loop of `createColorMixLightnessScale`: truthy merged
values are prefixed in ascending shade order. -/
def buildColorMixScale (baseFor500 : String) (user : String → Option String)
    (pfx : String) : List (String × String) :=
  prefixedEntries pfx ALL_LIGHTNESS_SHADE_KEYS (fun k =>
    match colorMixMergedScale baseFor500 user k with
    | some v => if v == "" then none else some v
    | none => none)

/-- Error message thrown by `createColorMixLightnessScale` when the
object input lacks a truthy 500 entry. -/
def colorMixMissing500Msg (pfx : String) : String :=
  "Color scale generation for prefix '" ++ pfx ++
    "' failed: The '500' shade is required in the colorOption object."

/-- Embedding of `createColorMixLightnessScale(colorOption, prefix)`:
falsy input gives `undefined`; a string input seeds shade 500 with no
user overrides; an object input needs a truthy 500 entry (else throws)
and records its truthy entries as overrides. -/
def createColorMixLightnessScale (colorOption : ColorOption) (pfx : String) :
    Except String (Option (List (String × String))) :=
  if colorOption.isFalsy then Except.ok none
  else
    match colorOption with
    | ColorOption.undef => Except.ok none
    | ColorOption.str s => Except.ok (some (buildColorMixScale s (fun _ => none) pfx))
    | ColorOption.scale m =>
      match m "500" with
      | none => Except.error (colorMixMissing500Msg pfx)
      | some s500 =>
        if s500 == "" then Except.error (colorMixMissing500Msg pfx)
        else Except.ok (some (buildColorMixScale s500 (userShades m) pfx))

/-- Embedding of `userDefinedColorToHslaColorScale(colorOption)`:
a string becomes a `{'500': s}` object; each of the 15 keys is parsed
when its entry is truthy, else left undefined. -/
def userDefinedColorToHslaColorScale (api : ColorsApi)
    (colorOption : ColorOption) : String → Option HslaColor :=
  let baseScale : String → Option String :=
    match colorOption with
    | ColorOption.str s => fun k => if k == "500" then some s else none
    | ColorOption.scale m => m
    | ColorOption.undef => fun _ => none
  fun k =>
    match baseScale k with
    | some s => if s == "" then none else some (api.toHslaColor s)
    | none => none

/-- Embedding of `mergeFilledIntoUserDefinedScale(generated, userDefined)`:
per key, the user-defined value when present, else the generated one. -/
def mergeFilledIntoUserDefinedScale
    (generated userDefined : String → Option HslaColor) :
    String → Option HslaColor :=
  fun k =>
    match userDefined k with
    | some v => some v
    | none => generated k

/-- Embedding of `fillUserProvidedScaleWithGeneratedHslaColors`: falsy
input gives `undefined`; an object input without a truthy 500 entry
throws; otherwise the generator is seeded with the parsed 500 value
(for a string input the string itself), merged under the user-defined
entries, and stringified with the prefix.  The truthy-500 guard makes
the 500 entry of the user-defined scale exactly `toHslaColor` of the
500 string, which is what seeds the generator in the source. -/
def fillUserProvidedScaleWithGeneratedHslaColors (api : ColorsApi)
    (colorOption : ColorOption) (pfx : String)
    (generator : HslaColor → String → Option HslaColor) :
    Except String (Option (List (String × String))) :=
  if colorOption.isFalsy then Except.ok none
  else
    match colorOption with
    | ColorOption.undef => Except.ok none
    | ColorOption.str s =>
      let userDefined := userDefinedColorToHslaColorScale api (ColorOption.str s)
      let filled := generator (api.toHslaColor s)
      let merged := mergeFilledIntoUserDefinedScale filled userDefined
      Except.ok (some (prefixAndStringifyHslaScale api merged pfx))
    | ColorOption.scale m =>
      match m "500" with
      | none => Except.error "You need to provide at least the 500 shade"
      | some s500 =>
        if s500 == "" then Except.error "You need to provide at least the 500 shade"
        else
          let userDefined := userDefinedColorToHslaColorScale api (ColorOption.scale m)
          let filled := generator (api.toHslaColor s500)
          let merged := mergeFilledIntoUserDefinedScale filled userDefined
          Except.ok (some (prefixAndStringifyHslaScale api merged pfx))

/-- Embedding of `colorOptionToHslaLightnessScale`. -/
def colorOptionToHslaLightnessScale (api : ColorsApi)
    (colorOption : ColorOption) (pfx : String) :
    Except String (Option (List (String × String))) :=
  fillUserProvidedScaleWithGeneratedHslaColors api colorOption pfx
    generateFilledScaleFromBaseHslaColor

/-- Embedding of `colorOptionToLightnessScale`; `colorMixSupported`
stands for the cached `isColorMixSupported()` probe. -/
def colorOptionToLightnessScale (api : ColorsApi) (colorMixSupported : Bool)
    (colorOption : ColorOption) (pfx : String) :
    Except String (Option (List (String × String))) :=
  if colorOption.isFalsy then Except.ok none
  else if colorMixSupported then createColorMixLightnessScale colorOption pfx
  else colorOptionToHslaLightnessScale api colorOption pfx

/-- Lightness values of a scale, taken in ascending shade-key order. -/
def scaleLightnesses (scale : String → Option HslaColor) : List ℚ :=
  ALL_SHADES.filterMap (fun k => (scale k).map HslaColor.l)

/-- A list of rationals is monotonically non-increasing. -/
def nonIncreasing : List ℚ → Prop
  | [] => True
  | [_] => True
  | x :: y :: rest => y ≤ x ∧ nonIncreasing (y :: rest)

/-- A list of rationals is monotonically non-decreasing. -/
def nonDecreasing : List ℚ → Prop
  | [] => True
  | [_] => True
  | x :: y :: rest => x ≤ y ∧ nonDecreasing (y :: rest)

/-- Input validity for the alpha entry point, mirroring the code's own
checks: a non-empty string, or an object carrying all 15 shade keys
(`undefined` and the empty string are "no customization", see the falsy
guard). -/
def alphaScaleInputValid : ColorOption → Bool
  | ColorOption.undef => false
  | ColorOption.str s => !(s == "")
  | ColorOption.scale m => ALL_SHADES.all (fun k => (m k).isSome)

/-- Input validity for the lightness entry point, mirroring the code's
own checks: a non-empty string, or an object with a truthy 500 entry. -/
def lightnessScaleInputValid : ColorOption → Bool
  | ColorOption.undef => false
  | ColorOption.str s => !(s == "")
  | ColorOption.scale m => truthy (m "500")

/-- A sample instantiation of the external color collaborator, used only
to evaluate theorems at concrete inputs. -/
def testApi : ColorsApi :=
  { toHslaColor := fun _ => ⟨0, 0, 50, 1⟩
    toHslaString := fun _ => "hsla(0, 0%, 50%, 1)" }

/-- A concrete partial alpha-scale object that is missing 14 of the 15
shade keys (only 500 is present). -/
def incompleteAlphaObject : String → Option String :=
  fun k => if k = "500" then some "red" else none

/-- A concrete lightness object carrying a 500 base and a 700 override. -/
def overrideObject : String → Option String :=
  fun k => if k = "500" then some "red" else if k = "700" then some "blue" else none

/-! Helper lemmas about string concatenation and prefixed entry lists. -/

theorem string_append_right_inj (p a b : String) : p ++ a = p ++ b ↔ a = b := by
  constructor
  · intro h
    have hd := congrArg String.data h
    simp only [String.data_append] at hd
    exact String.ext (List.append_cancel_left hd)
  · intro h
    rw [h]

theorem string_beq_append (p a b : String) : (p ++ a == p ++ b) = (a == b) := by
  by_cases h : a = b
  · subst h
    simp
  · have h2 : p ++ a ≠ p ++ b := fun hc => h ((string_append_right_inj p a b).mp hc)
    simp [h, h2]

theorem prefixedEntries_map_fst (pfx : String) (keys : List String)
    (value : String → Option String) (h : ∀ k ∈ keys, (value k).isSome = true) :
    (prefixedEntries pfx keys value).map Prod.fst = keys.map (fun k => pfx ++ k) := by
  induction keys with
  | nil => rfl
  | cons x rest ih =>
    have hx := h x (List.mem_cons_self x rest)
    obtain ⟨v, hv⟩ := Option.isSome_iff_exists.mp hx
    have htail := ih (fun k hk => h k (List.mem_cons_of_mem _ hk))
    simp only [prefixedEntries, List.filterMap_cons, hv, Option.map_some',
      List.map_cons] at htail ⊢
    exact congrArg (List.cons _) htail

theorem prefixedEntries_lookup (pfx : String) (keys : List String)
    (value : String → Option String) (k v : String) (hk : k ∈ keys)
    (hv : value k = some v) :
    (prefixedEntries pfx keys value).lookup (pfx ++ k) = some v := by
  induction keys with
  | nil => cases hk
  | cons x rest ih =>
    by_cases hkx : k = x
    · subst hkx
      simp only [prefixedEntries, List.filterMap_cons, hv, Option.map_some']
      simp [List.lookup]
    · have hk2 : k ∈ rest := by
        rcases List.mem_cons.mp hk with h | h
        · exact absurd h hkx
        · exact h
      have htail := ih hk2
      simp only [prefixedEntries, List.filterMap_cons] at htail ⊢
      cases hfx : value x with
      | none => exact htail
      | some w =>
        have hbeq : (pfx ++ k == pfx ++ x) = false := by
          rw [string_beq_append]
          exact beq_eq_false_iff_ne.mpr hkx
        simp only [Option.map_some', List.lookup, hbeq]
        exact htail

theorem ALL_LIGHTNESS_SHADE_KEYS_eq_ALL_SHADES :
    ALL_LIGHTNESS_SHADE_KEYS = ALL_SHADES := rfl

theorem colorMix_ne_empty (a b : String) : colorMix a b ≠ "" := by
  intro h
  have hd := congrArg String.data h
  have h0 : ("" : String).data = [] := rfl
  simp only [colorMix, String.data_append, h0, List.append_eq_nil] at hd
  exact absurd hd.1.1.1.1 (by decide)

theorem colorMix_beq_empty (a b : String) : (colorMix a b == "") = false :=
  beq_eq_false_iff_ne.mpr (colorMix_ne_empty a b)

theorem LIGHT_SHADES_eq :
    LIGHT_SHADES = ["400", "300", "200", "150", "100", "50", "25"] := rfl

theorem ALL_SHADES_eq :
    ALL_SHADES = ["25", "50", "100", "150", "200", "300", "400", "500", "600",
      "700", "750", "800", "850", "900", "950"] := rfl

theorem truthy_eq_true_iff (o : Option String) :
    truthy o = true ↔ ∃ s, o = some s ∧ (s == "") = false := by
  cases o with
  | none => simp [truthy]
  | some s =>
    simp only [truthy, Bool.not_eq_true', Option.some.injEq]
    constructor
    · intro h
      exact ⟨s, rfl, h⟩
    · rintro ⟨t, ht, h⟩
      rw [ht]
      exact h

theorem map_isSome {α β : Type} (f : α → β) (x : Option α)
    (h : x.isSome = true) : (x.map f).isSome = true := by
  cases x with
  | none => exact absurd h (by simp)
  | some v => rfl

theorem genLightness_isSome (b : HslaColor) (k : String) (hk : k ∈ ALL_SHADES) :
    (generateFilledScaleFromBaseHslaColor b k).isSome = true := by
  rw [ALL_SHADES_eq] at hk
  fin_cases hk <;> rfl

theorem genAlpha_isSome (b : HslaColor) (k : String) (hk : k ∈ ALL_SHADES) :
    (generateFilledAlphaScaleFromBaseHslaColor b k).isSome = true := by
  rw [ALL_SHADES_eq] at hk
  fin_cases hk <;> rfl

theorem merge_isSome (g ud : String → Option HslaColor) (k : String)
    (h : (g k).isSome = true) :
    (mergeFilledIntoUserDefinedScale g ud k).isSome = true := by
  cases hud : ud k <;> simp [mergeFilledIntoUserDefinedScale, hud, h]

theorem userShades_ne_empty (m : String → Option String) (key v : String)
    (h : userShades m key = some v) : (v == "") = false := by
  unfold userShades at h
  cases hms : m key with
  | none =>
    rw [hms] at h
    exact absurd h (by simp)
  | some s =>
    rw [hms] at h
    by_cases hse : (s == "") = true
    · simp [hse] at h
    · have hse' : (s == "") = false := by simpa using hse
      simp only [hse', Bool.false_eq_true, if_false, Option.some.injEq] at h
      exact h ▸ hse'

theorem colorMixMerged_isSome (baseFor500 : String)
    (user : String → Option String) (hbase : (baseFor500 == "") = false)
    (huser : ∀ key v, user key = some v → (v == "") = false)
    (k : String) (hk : k ∈ ALL_LIGHTNESS_SHADE_KEYS) :
    ((fun j => match colorMixMergedScale baseFor500 user j with
      | some v => if v == "" then none else some v
      | none => none) k).isSome = true := by
  cases hu : user k with
  | some v =>
    have hv := huser k v hu
    simp [colorMixMergedScale, hu, hv]
  | none =>
    simp only [colorMixMergedScale, hu]
    rw [ALL_LIGHTNESS_SHADE_KEYS_eq_ALL_SHADES, ALL_SHADES_eq] at hk
    fin_cases hk <;>
      simp +decide [colorMixGeneratedScale, LIGHTNESS_SHADES_DEF, List.lookup,
        lighten, darken, colorMix_beq_empty, hbase]

/-! Theorems for the frozen claims. -/

/-- C1: for every color string `c` and percentage string `p`,
`darken(c, p)` is the color-mix expression blending `c` at
`(100 - p)%` with `black` at a fixed `10%`: the percentage only affects
the first operand's weight, and the black operand reads `black 10%`
whatever `p` is. -/
theorem darken_blends_with_fixed_black (c : String) (p : Percentage) :
    darken c p =
      "color-mix(in oklch, " ++ c ++ " " ++ toString (100 - p.value) ++
        "%, black 10%)" := by
  have h1 : ("%" ++ ", " : String) = "%, " := rfl
  have h2 : ("%, " ++ "black 10%" : String) = "%, black 10%" := rfl
  have h3 : ("%, black 10%" ++ ")" : String) = "%, black 10%)" := rfl
  show "color-mix(in oklch, " ++ (c ++ " " ++ toString (100 - p.value) ++ "%") ++
      ", " ++ "black 10%" ++ ")" = _
  simp only [← String.append_assoc]
  rw [String.append_assoc _ "%" ", ", h1, String.append_assoc _ "%, " "black 10%",
    h2, String.append_assoc _ "%, black 10%" ")", h3]

/-- C10: both public entry points treat every falsy `colorOption`
(`undefined` as well as the empty string) as "no customization": they
return `undefined` without throwing, on either capability branch. -/
theorem falsy_input_returns_undefined (api : ColorsApi) (sup : Bool)
    (pfx : String) :
    colorOptionToAlphaScale api sup ColorOption.undef pfx = Except.ok none ∧
    colorOptionToAlphaScale api sup (ColorOption.str "") pfx = Except.ok none ∧
    colorOptionToLightnessScale api sup ColorOption.undef pfx = Except.ok none ∧
    colorOptionToLightnessScale api sup (ColorOption.str "") pfx = Except.ok none := by
  refine ⟨?_, ?_, ?_, ?_⟩ <;>
    simp [colorOptionToAlphaScale, colorOptionToLightnessScale, ColorOption.isFalsy]

/-- C4: the lightness entry point rejects every object input lacking a
truthy 500 entry, on both the color-mix branch and the HSLA branch,
with a missing-base-shade error. -/
theorem lightness_scale_missing_500_errors (api : ColorsApi) (sup : Bool)
    (pfx : String) (m : String → Option String)
    (h : truthy (m "500") = false) :
    ∃ e, colorOptionToLightnessScale api sup (ColorOption.scale m) pfx =
      Except.error e := by
  cases h500 : m "500" with
  | none =>
    cases sup <;>
      simp [colorOptionToLightnessScale, ColorOption.isFalsy,
        createColorMixLightnessScale, colorOptionToHslaLightnessScale,
        fillUserProvidedScaleWithGeneratedHslaColors, h500]
  | some s =>
    have hs : (s == "") = true := by
      rw [h500] at h
      simpa [truthy] using h
    cases sup <;>
      simp [colorOptionToLightnessScale, ColorOption.isFalsy,
        createColorMixLightnessScale, colorOptionToHslaLightnessScale,
        fillUserProvidedScaleWithGeneratedHslaColors, h500, hs]

/-- Witness for C4: the object `{'700': 'red'}` (no 500 entry) is
rejected by the lightness entry point. -/
theorem lightness_scale_missing_500_errors_witness :
    ∃ e, colorOptionToLightnessScale testApi true
      (ColorOption.scale (fun k => if k = "700" then some "red" else none)) "p" =
        Except.error e :=
  lightness_scale_missing_500_errors testApi true "p"
    (fun k => if k = "700" then some "red" else none) (by decide)

/-- C3 evaluation: with color-mix support detected, an object-form alpha
input missing 14 of the 15 shade keys is NOT rejected: the object is
coerced to the string "[object Object]" and a transparentize scale is
returned, while the same input on the non-supported branch raises the
incomplete-scale error.  This contradicts the claim (and the module's
own overload types, see the source's cast marked `TODO`). -/
theorem alpha_scale_supported_branch_skips_completeness_check :
    colorOptionToAlphaScale testApi true (ColorOption.scale incompleteAlphaObject) "p" =
      Except.ok (some (ALPHA_SHADES_MAP.map
        (fun e => ("p" ++ e.1, transparentize "[object Object]" e.2)))) ∧
    colorOptionToAlphaScale testApi false (ColorOption.scale incompleteAlphaObject) "p" =
      Except.error ("You need to provide all the following shades: " ++
        String.intercalate ", " ALL_SHADES) := by
  constructor
  · rfl
  · rfl

/-- C5: the HSLA lightness generator keeps the base at shade 500 and,
with lightStep = (97 - l)/7 and darkStep = (l - 12)/7, gives the i-th
light shade (0-indexed over `LIGHT_SHADES`, i.e. counting 400 as the
first) lightness l + (i+1)·lightStep and the i-th dark shade lightness
l - (i+1)·darkStep, carrying hue, saturation and alpha over unchanged. -/
theorem hsla_lightness_generator_formula (b : HslaColor) :
    generateFilledScaleFromBaseHslaColor b "500" = some b ∧
    (∀ i : Fin 7, generateFilledScaleFromBaseHslaColor b (LIGHT_SHADES.getD i.val "") =
      some { b with l := b.l + ((i.val : ℚ) + 1) * ((97 - b.l) / 7) }) ∧
    (∀ i : Fin 7, generateFilledScaleFromBaseHslaColor b (DARK_SHADES.getD i.val "") =
      some { b with l := b.l - ((i.val : ℚ) + 1) * ((b.l - 12) / 7) }) := by
  refine ⟨rfl, ?_, ?_⟩ <;>
  · intro i
    fin_cases i <;>
    · simp +decide only [generateFilledScaleFromBaseHslaColor, LIGHT_SHADES_eq,
        DARK_SHADES, TARGET_L_50_SHADE, TARGET_L_900_SHADE, indexOfStr,
        changeHslaLightness, List.getD, List.length_cons, List.length_nil,
        Option.map_some', Option.some.injEq, HslaColor.mk.injEq]
      push_cast
      norm_num
      try ring

/-- C6 counterexample: for the base hsla(0, 0%, 50%, 1), whose lightness
50 differs from both anchors, the extreme shades land EXACTLY on the
anchors: shade 25 has lightness exactly 97 and shade 950 exactly 12
(the loop applies 7 steps of size (97-l)/7 resp. (l-12)/7). -/
theorem hsla_scale_extremes_exact_cex :
    ((generateFilledScaleFromBaseHslaColor ⟨0, 0, 50, 1⟩) "25").map HslaColor.l =
      some 97 ∧
    ((generateFilledScaleFromBaseHslaColor ⟨0, 0, 50, 1⟩) "950").map HslaColor.l =
      some 12 ∧
    (50 : ℚ) ≠ 97 ∧ (50 : ℚ) ≠ 12 := by
  refine ⟨?_, ?_, by norm_num, by norm_num⟩ <;>
  · simp +decide only [generateFilledScaleFromBaseHslaColor, LIGHT_SHADES_eq,
      DARK_SHADES, TARGET_L_50_SHADE, TARGET_L_900_SHADE, indexOfStr,
      changeHslaLightness, List.length_cons, List.length_nil]
    norm_num

/-- C6 amended: for every base color, the extreme shades of the HSLA
lightness scale land exactly at the anchors in exact arithmetic: shade
25 has lightness exactly 97 and shade 950 exactly 12. -/
theorem hsla_scale_extremes_exactly_at_anchors (b : HslaColor) :
    ((generateFilledScaleFromBaseHslaColor b) "25").map HslaColor.l = some 97 ∧
    ((generateFilledScaleFromBaseHslaColor b) "950").map HslaColor.l = some 12 := by
  have h25 : generateFilledScaleFromBaseHslaColor b "25" =
      some (changeHslaLightness b ((((6 : ℕ) : ℚ) + 1) * ((97 - b.l) / 7))) := rfl
  have h950 : generateFilledScaleFromBaseHslaColor b "950" =
      some (changeHslaLightness b ((((6 : ℕ) : ℚ) + 1) * ((b.l - 12) / 7) * (-1))) := rfl
  constructor
  · rw [h25]
    simp only [Option.map_some', changeHslaLightness, Option.some.injEq]
    push_cast
    ring
  · rw [h950]
    simp only [Option.map_some', changeHslaLightness, Option.some.injEq]
    push_cast
    ring

/-- C2 counterexample: for the base hsla(0, 0%, 0%, 1) (the parse of
the CSS color string "black"), the HSLA lightness scale is NOT
monotonically non-increasing: the dark step (0 - 12)/7 is negative, so
shade 600 is lighter than shade 500. -/
theorem hsla_scale_lightness_not_monotone_cex :
    ¬ nonIncreasing (scaleLightnesses
      (generateFilledScaleFromBaseHslaColor ⟨0, 0, 0, 1⟩)) := by
  simp +decide only [scaleLightnesses, ALL_SHADES_eq,
    generateFilledScaleFromBaseHslaColor, LIGHT_SHADES_eq, DARK_SHADES,
    TARGET_L_50_SHADE, TARGET_L_900_SHADE, indexOfStr, changeHslaLightness,
    List.filterMap_cons, List.filterMap_nil, List.length_cons, List.length_nil,
    Option.map_some']
  norm_num [nonIncreasing]

/-- C2 amended: whenever the base lightness lies between the two anchors
(12 ≤ l ≤ 97), the lightness values of the 15 generated shades, in shade
order 25, 50, ..., 950, are monotonically non-increasing. -/
theorem hsla_scale_lightness_monotone_of_l_in_range (b : HslaColor)
    (h1 : 12 ≤ b.l) (h2 : b.l ≤ 97) :
    nonIncreasing (scaleLightnesses (generateFilledScaleFromBaseHslaColor b)) := by
  have hl : 0 ≤ (97 - b.l) / 7 := by linarith
  have hd : 0 ≤ (b.l - 12) / 7 := by linarith
  simp +decide only [scaleLightnesses, ALL_SHADES_eq,
    generateFilledScaleFromBaseHslaColor, LIGHT_SHADES_eq, DARK_SHADES,
    TARGET_L_50_SHADE, TARGET_L_900_SHADE, indexOfStr, changeHslaLightness,
    List.filterMap_cons, List.filterMap_nil, List.length_cons, List.length_nil,
    Option.map_some', nonIncreasing]
  push_cast
  refine ⟨?_, ?_, ?_, ?_, ?_, ?_, ?_, ?_, ?_, ?_, ?_, ?_, ?_, ?_, True.intro⟩ <;>
    linarith

/-- Witness for C2 (amended): the scale generated from
hsla(210, 50%, 50%, 1) has non-increasing lightness. -/
theorem hsla_scale_lightness_monotone_witness :
    nonIncreasing (scaleLightnesses
      (generateFilledScaleFromBaseHslaColor ⟨210, 50, 50, 1⟩)) :=
  hsla_scale_lightness_monotone_of_l_in_range ⟨210, 50, 50, 1⟩
    (by norm_num) (by norm_num)

/-- C7: for an object-form lightness input with a truthy 500 entry and
a truthy entry X at some shade key k, the output value at the prefixed
key for k comes from X: it is X itself on the color-mix branch and the
HSLA round-trip of X on the HSLA branch — never the generated value. -/
theorem lightness_scale_override_priority (api : ColorsApi) (pfx : String)
    (m : String → Option String) (k X : String) (hk : k ∈ ALL_SHADES)
    (h500 : truthy (m "500") = true) (hmk : m k = some X) (hX : X ≠ "") :
    (∃ res, colorOptionToLightnessScale api true (ColorOption.scale m) pfx =
        Except.ok (some res) ∧ res.lookup (pfx ++ k) = some X) ∧
    (∃ res, colorOptionToLightnessScale api false (ColorOption.scale m) pfx =
        Except.ok (some res) ∧
        res.lookup (pfx ++ k) = some (api.toHslaString (api.toHslaColor X))) := by
  have hXb : (X == "") = false := beq_eq_false_iff_ne.mpr hX
  obtain ⟨s500, h5, hs5⟩ : ∃ s, m "500" = some s ∧ (s == "") = false := by
    cases h : m "500" with
    | none =>
      rw [h] at h500
      simp [truthy] at h500
    | some s =>
      refine ⟨s, rfl, ?_⟩
      rw [h] at h500
      simpa [truthy] using h500
  have hkL : k ∈ ALL_LIGHTNESS_SHADE_KEYS := by
    rw [ALL_LIGHTNESS_SHADE_KEYS_eq_ALL_SHADES]
    exact hk
  constructor
  · refine ⟨buildColorMixScale s500 (userShades m) pfx, ?_, ?_⟩
    · simp [colorOptionToLightnessScale, ColorOption.isFalsy,
        createColorMixLightnessScale, h5, hs5]
    · apply prefixedEntries_lookup pfx ALL_LIGHTNESS_SHADE_KEYS _ k X hkL
      simp [colorMixMergedScale, userShades, hmk, hXb]
  · refine ⟨prefixAndStringifyHslaScale api
      (mergeFilledIntoUserDefinedScale
        (generateFilledScaleFromBaseHslaColor (api.toHslaColor s500))
        (userDefinedColorToHslaColorScale api (ColorOption.scale m))) pfx, ?_, ?_⟩
    · simp [colorOptionToLightnessScale, ColorOption.isFalsy,
        colorOptionToHslaLightnessScale,
        fillUserProvidedScaleWithGeneratedHslaColors, h5, hs5]
    · apply prefixedEntries_lookup pfx ALL_SHADES _ k _ hk
      simp [mergeFilledIntoUserDefinedScale, userDefinedColorToHslaColorScale,
        hmk, hXb, hX]

/-- Witness for C7: with the object `{'500': 'red', '700': 'blue'}`, the
`p700` entry is derived from "blue" on both branches. -/
theorem lightness_scale_override_priority_witness :
    (∃ res, colorOptionToLightnessScale testApi true
        (ColorOption.scale overrideObject) "p" = Except.ok (some res) ∧
        res.lookup ("p" ++ "700") = some "blue") ∧
    (∃ res, colorOptionToLightnessScale testApi false
        (ColorOption.scale overrideObject) "p" = Except.ok (some res) ∧
        res.lookup ("p" ++ "700") =
          some (testApi.toHslaString (testApi.toHslaColor "blue"))) :=
  lightness_scale_override_priority testApi "p" overrideObject "700" "blue"
    (by decide) (by decide) (by decide) (by decide)

/-- C8: the HSLA alpha generator maps the i-th shade key (ascending
order 25..950) to the base color with hue, saturation and lightness
unchanged and alpha replaced by the fixed table entry, whatever the
base alpha was; the table itself is monotonically non-decreasing. -/
theorem hsla_alpha_generator_formula (b : HslaColor) :
    (∀ i : Fin 15,
      generateFilledAlphaScaleFromBaseHslaColor b (ALL_SHADES.getD i.val "") =
        some { b with a := alphas.getD i.val 0 }) ∧
    nonDecreasing alphas := by
  constructor
  · intro i
    fin_cases i <;> rfl
  · simp only [alphas, nonDecreasing]
    norm_num

/-- C9: for every input the entry points accept (a non-empty string, or
an object valid for the respective path), the returned mapping has
exactly 15 keys, one per shade key in ascending order, each being the
prefix immediately followed by the shade key with no separator. -/
theorem entry_scales_have_all_prefixed_keys (api : ColorsApi) (sup : Bool)
    (pfx : String) (co : ColorOption) :
    (alphaScaleInputValid co = true →
      ∃ res, colorOptionToAlphaScale api sup co pfx = Except.ok (some res) ∧
        res.map Prod.fst = ALL_SHADES.map (fun k => pfx ++ k)) ∧
    (lightnessScaleInputValid co = true →
      ∃ res, colorOptionToLightnessScale api sup co pfx = Except.ok (some res) ∧
        res.map Prod.fst = ALL_SHADES.map (fun k => pfx ++ k)) := by
  have halphaKeys : ∀ c : String,
      (createAlphaScaleWithTransparentize c pfx).map Prod.fst =
        ALL_SHADES.map (fun k => pfx ++ k) := fun c => rfl
  constructor
  · intro hv
    cases co with
    | undef => simp [alphaScaleInputValid] at hv
    | str s =>
      have hs : (s == "") = false := by simpa [alphaScaleInputValid] using hv
      cases sup with
      | true =>
        refine ⟨createAlphaScaleWithTransparentize s pfx, ?_, halphaKeys s⟩
        simp [colorOptionToAlphaScale, ColorOption.isFalsy, hs, coerceToString]
      | false =>
        refine ⟨prefixAndStringifyHslaScale api
          (generateFilledAlphaScaleFromBaseHslaColor (api.toHslaColor s)) pfx,
          ?_, ?_⟩
        · simp [colorOptionToAlphaScale, ColorOption.isFalsy, hs,
            colorOptionToHslaAlphaScale,
            getUserProvidedScaleOrGenerateHslaColorsScale]
        · apply prefixedEntries_map_fst
          intro k hk
          exact map_isSome _ _ (genAlpha_isSome _ k hk)
    | scale m =>
      have hall : ALL_SHADES.all (fun k => (m k).isSome) = true := by
        simpa [alphaScaleInputValid] using hv
      cases sup with
      | true =>
        refine ⟨createAlphaScaleWithTransparentize "[object Object]" pfx, ?_,
          halphaKeys _⟩
        simp [colorOptionToAlphaScale, ColorOption.isFalsy, coerceToString]
      | false =>
        refine ⟨prefixAndStringifyHslaScale api
          (fun k => (m k).map api.toHslaColor) pfx, ?_, ?_⟩
        · simp [colorOptionToAlphaScale, ColorOption.isFalsy,
            colorOptionToHslaAlphaScale,
            getUserProvidedScaleOrGenerateHslaColorsScale, hall]
        · apply prefixedEntries_map_fst
          intro k hk
          have hmk : (m k).isSome = true := by
            simpa using List.all_eq_true.mp hall k hk
          exact map_isSome _ _ (map_isSome _ _ hmk)
  · intro hv
    cases co with
    | undef => simp [lightnessScaleInputValid] at hv
    | str s =>
      have hs : (s == "") = false := by simpa [lightnessScaleInputValid] using hv
      cases sup with
      | true =>
        refine ⟨buildColorMixScale s (fun _ => none) pfx, ?_, ?_⟩
        · simp [colorOptionToLightnessScale, ColorOption.isFalsy, hs,
            createColorMixLightnessScale]
        · unfold buildColorMixScale
          rw [ALL_LIGHTNESS_SHADE_KEYS_eq_ALL_SHADES]
          apply prefixedEntries_map_fst
          intro k hk
          exact colorMixMerged_isSome s _ hs (fun key v h => by cases h) k
            (by rw [ALL_LIGHTNESS_SHADE_KEYS_eq_ALL_SHADES]; exact hk)
      | false =>
        refine ⟨prefixAndStringifyHslaScale api
          (mergeFilledIntoUserDefinedScale
            (generateFilledScaleFromBaseHslaColor (api.toHslaColor s))
            (userDefinedColorToHslaColorScale api (ColorOption.str s))) pfx,
          ?_, ?_⟩
        · simp [colorOptionToLightnessScale, ColorOption.isFalsy, hs,
            colorOptionToHslaLightnessScale,
            fillUserProvidedScaleWithGeneratedHslaColors]
        · apply prefixedEntries_map_fst
          intro k hk
          exact map_isSome _ _ (merge_isSome _ _ k (genLightness_isSome _ k hk))
    | scale m =>
      have h500 : truthy (m "500") = true := by
        simpa [lightnessScaleInputValid] using hv
      obtain ⟨s500, h5, hs5⟩ := (truthy_eq_true_iff (m "500")).mp h500
      cases sup with
      | true =>
        refine ⟨buildColorMixScale s500 (userShades m) pfx, ?_, ?_⟩
        · simp [colorOptionToLightnessScale, ColorOption.isFalsy,
            createColorMixLightnessScale, h5, hs5]
        · unfold buildColorMixScale
          rw [ALL_LIGHTNESS_SHADE_KEYS_eq_ALL_SHADES]
          apply prefixedEntries_map_fst
          intro k hk
          exact colorMixMerged_isSome s500 _ hs5 (userShades_ne_empty m) k
            (by rw [ALL_LIGHTNESS_SHADE_KEYS_eq_ALL_SHADES]; exact hk)
      | false =>
        refine ⟨prefixAndStringifyHslaScale api
          (mergeFilledIntoUserDefinedScale
            (generateFilledScaleFromBaseHslaColor (api.toHslaColor s500))
            (userDefinedColorToHslaColorScale api (ColorOption.scale m))) pfx,
          ?_, ?_⟩
        · simp [colorOptionToLightnessScale, ColorOption.isFalsy,
            colorOptionToHslaLightnessScale,
            fillUserProvidedScaleWithGeneratedHslaColors, h5, hs5]
        · apply prefixedEntries_map_fst
          intro k hk
          exact map_isSome _ _ (merge_isSome _ _ k (genLightness_isSome _ k hk))

/-- Witness for C9: for the string input "red" with color-mix support,
both entry points return a mapping whose key list is exactly the 15
prefixed shade keys. -/
theorem entry_scales_have_all_prefixed_keys_witness :
    (∃ res, colorOptionToAlphaScale testApi true (ColorOption.str "red") "p" =
        Except.ok (some res) ∧
        res.map Prod.fst = ALL_SHADES.map (fun k => "p" ++ k)) ∧
    (∃ res, colorOptionToLightnessScale testApi true (ColorOption.str "red") "p" =
        Except.ok (some res) ∧
        res.map Prod.fst = ALL_SHADES.map (fun k => "p" ++ k)) :=
  ⟨(entry_scales_have_all_prefixed_keys testApi true "p" (ColorOption.str "red")).1
      (by decide),
   (entry_scales_have_all_prefixed_keys testApi true "p" (ColorOption.str "red")).2
      (by decide)⟩

end ClerkColors
